import Mathlib

/-!
Verification of the FHETaxCalculator repository: a shallow embedding of the
client-side progressive tax engine (src/app.js) and of the ledger contract
(src/contracts/PrivateTaxCalculator.sol), together with proofs of the spec's
claims about them.

Numeric values that JavaScript holds in `number` variables are modelled as
exact rationals (the amounts involved are small integers and tenths, all
exactly representable); `Math.round` is modelled as round-half-up, its
behaviour on the non-negative values that arise here.
-/

namespace TaxApp

/-- JavaScript `Math.round` on the non-negative values arising in this
program: round to the nearest integer, halves rounding toward positive
infinity, i.e. `⌊x + 1/2⌋`. -/
def mathRound (q : ℚ) : ℤ := ⌊q + 1/2⌋

/-- Embedding of `calculateEstimatedTax(income, deductions)` from
src/app.js (lines 393-407): taxable income floored at zero, then a
three-bracket progressive schedule written with cumulative constants
`5000` and `15000`, rounded with `Math.round`. -/
def calculateEstimatedTax (income deductions : ℚ) : ℤ :=
  let taxableIncome := max 0 (income - deductions)
  let tax : ℚ :=
    if taxableIncome ≤ 50000 then taxableIncome * 0.10
    else if taxableIncome ≤ 100000 then 5000 + (taxableIncome - 50000) * 0.20
    else 15000 + (taxableIncome - 100000) * 0.30
  mathRound tax

/-- Embedding of `calculateProgressiveTax(taxableIncome)` from src/app.js
(lines 862-877): the same three-bracket schedule written with per-bracket
terms `50000*0.10` and `50000*0.20`, rounded with `Math.round`. -/
def calculateProgressiveTax (taxableIncome : ℚ) : ℤ :=
  let tax : ℚ :=
    if taxableIncome ≤ 50000 then taxableIncome * 0.10
    else if taxableIncome ≤ 100000 then 50000 * 0.10 + (taxableIncome - 50000) * 0.20
    else 50000 * 0.10 + 50000 * 0.20 + (taxableIncome - 100000) * 0.30
  mathRound tax

/-- Embedding of `getMarginalTaxRate(taxableIncome)` from src/app.js
(lines 879-888): the marginal bracket rate as the string the UI shows. -/
def getMarginalTaxRate (taxableIncome : ℚ) : String :=
  if taxableIncome ≤ 50000 then "10"
  else if taxableIncome ≤ 100000 then "20"
  else "30"

/-- One named preset from the `this.scenarios` table in src/app.js
(lines 51-80). -/
structure TaxScenario where
  income : ℕ
  deductions : ℕ
  description : String
  expectedTax : ℕ
  gasEstimate : String
deriving DecidableEq

/-- The `this.scenarios` table of src/app.js (lines 51-80). -/
structure ScenarioTable where
  low : TaxScenario
  medium : TaxScenario
  high : TaxScenario
  custom : TaxScenario
deriving DecidableEq

/-- The concrete scenario presets from src/app.js (lines 51-80). -/
def scenarios : ScenarioTable where
  low := ⟨30000, 5000, "Low Income Scenario", 2500, "150000"⟩
  medium := ⟨75000, 12000, "Medium Income Scenario", 10800, "180000"⟩
  high := ⟨150000, 25000, "High Income Scenario", 29000, "200000"⟩
  custom := ⟨0, 0, "Custom Amount", 0, "200000"⟩

/-- The tax schedule exactly as the spec states it (spec.md §4.1): 10% on
the portion of taxable income up to `B1 = 50000`, 20% on the portion
between `B1` and `B2 = 100000`, 30% above `B2`, written with the spec's
per-bracket terms; the result is rounded to the nearest integer with
halves rounding up. Used only to compare the code against the spec. -/
def specTaxOwed (income deductions : ℚ) : ℤ :=
  let taxableIncome := max 0 (income - deductions)
  let tax : ℚ :=
    if taxableIncome ≤ 50000 then taxableIncome * 0.10
    else if taxableIncome ≤ 100000 then 50000 * 0.10 + (taxableIncome - 50000) * 0.20
    else 50000 * 0.10 + 50000 * 0.20 + (taxableIncome - 100000) * 0.30
  ⌊tax + 1/2⌋

/-- Rounding is monotone: `Math.round` preserves `≤`. -/
lemma mathRound_mono {q₁ q₂ : ℚ} (h : q₁ ≤ q₂) : mathRound q₁ ≤ mathRound q₂ :=
  Int.floor_le_floor (by linarith)

/-- The two client-side implementations coincide: the cumulative constants
`5000` and `15000` of `calculateEstimatedTax` equal the per-bracket sums of
`calculateProgressiveTax`. -/
lemma est_eq_prog (income deductions : ℚ) :
    calculateEstimatedTax income deductions =
      calculateProgressiveTax (max 0 (income - deductions)) := by
  simp only [calculateEstimatedTax, calculateProgressiveTax]
  split_ifs <;> norm_num

/-- The per-bracket schedule agrees with the spec's formula verbatim. -/
lemma prog_eq_spec (income deductions : ℚ) :
    calculateProgressiveTax (max 0 (income - deductions)) =
      specTaxOwed income deductions := by
  simp only [calculateProgressiveTax, specTaxOwed, mathRound]

/-- The progressive schedule is monotone in taxable income. -/
lemma prog_mono {t₁ t₂ : ℚ} (h : t₁ ≤ t₂) :
    calculateProgressiveTax t₁ ≤ calculateProgressiveTax t₂ := by
  simp only [calculateProgressiveTax]
  apply mathRound_mono
  split_ifs <;> linarith

/-- Claim C1: for every non-negative integer income and deductions, the tax
engine computes `taxableIncome = max 0 (income - deductions)` and applies
the three-bracket schedule (10% up to 50000, 20% between 50000 and 100000,
30% above), rounding the result to the nearest integer with halves up —
i.e. `calculateEstimatedTax` agrees with the spec's formula `specTaxOwed`. -/
theorem claim_C1_engine_matches_spec_formula (income deductions : ℕ) :
    calculateEstimatedTax income deductions = specTaxOwed income deductions := by
  rw [est_eq_prog]
  exact prog_eq_spec income deductions

/-- Claim C6: the boundary values and the medium/high scenario presets of
the tax engine: `taxOwed 50000 0 = 5000`, `taxOwed 100000 0 = 15000`,
`taxOwed 150000 25000 = 22500`; the medium preset `(75000, 12000)` yields
tax owed `7600` at marginal rate `20`, and the high preset
`(150000, 25000)` yields `22500` at marginal rate `30`. -/
theorem claim_C6_boundary_and_scenario_values :
    calculateEstimatedTax 50000 0 = 5000 ∧
    calculateEstimatedTax 100000 0 = 15000 ∧
    calculateEstimatedTax 150000 25000 = 22500 ∧
    scenarios.medium.income = 75000 ∧ scenarios.medium.deductions = 12000 ∧
    calculateEstimatedTax 75000 12000 = 7600 ∧
    getMarginalTaxRate (max 0 ((75000 : ℚ) - 12000)) = "20" ∧
    scenarios.high.income = 150000 ∧ scenarios.high.deductions = 25000 ∧
    calculateEstimatedTax 150000 25000 = 22500 ∧
    getMarginalTaxRate (max 0 ((150000 : ℚ) - 25000)) = "30" := by
  refine ⟨?_, ?_, ?_, rfl, rfl, ?_, ?_, rfl, rfl, ?_, ?_⟩ <;>
    norm_num [calculateEstimatedTax, getMarginalTaxRate, mathRound]

/-- Claim C7: with deductions fixed, the tax owed is non-decreasing in
income; with income fixed and `deductions ≤ income`, it is non-increasing
in deductions. -/
theorem claim_C7_monotonicity :
    (∀ deductions income₁ income₂ : ℕ, income₁ ≤ income₂ →
      calculateEstimatedTax income₁ deductions ≤ calculateEstimatedTax income₂ deductions) ∧
    (∀ income deductions₁ deductions₂ : ℕ, deductions₁ ≤ deductions₂ → deductions₂ ≤ income →
      calculateEstimatedTax income deductions₂ ≤ calculateEstimatedTax income deductions₁) := by
  constructor
  · intro d i₁ i₂ h
    rw [est_eq_prog, est_eq_prog]
    apply prog_mono
    apply max_le_max le_rfl
    have : (i₁ : ℚ) ≤ i₂ := by exact_mod_cast h
    linarith
  · intro i d₁ d₂ h _
    rw [est_eq_prog, est_eq_prog]
    apply prog_mono
    apply max_le_max le_rfl
    have : (d₁ : ℚ) ≤ d₂ := by exact_mod_cast h
    linarith

/-- Witness for claim C7 at concrete inputs. -/
theorem claim_C7_monotonicity_witness :
    calculateEstimatedTax 30000 5000 ≤ calculateEstimatedTax 75000 5000 ∧
    calculateEstimatedTax 75000 12000 ≤ calculateEstimatedTax 75000 5000 :=
  ⟨claim_C7_monotonicity.1 5000 30000 75000 (by norm_num),
   claim_C7_monotonicity.2 75000 5000 12000 (by norm_num) (by norm_num)⟩

/-- Claim C8: the two client-side tax implementations agree — for every
non-negative integer income and deductions,
`calculateEstimatedTax income deductions` equals
`calculateProgressiveTax (max 0 (income - deductions))`. -/
theorem claim_C8_implementations_agree (income deductions : ℕ) :
    calculateEstimatedTax income deductions =
      calculateProgressiveTax (max 0 ((income : ℚ) - deductions)) :=
  est_eq_prog income deductions

end TaxApp

namespace PrivateTaxCalculator

/-- Account addresses, abstracted to naturals. -/
abbrev Addr := ℕ

/-- `bytes32` values, abstracted to naturals; `bytes32(0)` is `0`. -/
abbrev Bytes32 := ℕ

/-- The `VERSION` constant of the contract. -/
def VERSION : ℕ := 1

/-- Embedding of the `TaxRecord` struct from
src/contracts/PrivateTaxCalculator.sol (lines 22-30). -/
structure TaxRecord where
  incomeHash : Bytes32
  deductionsHash : Bytes32
  taxOwedHash : Bytes32
  calculated : Bool
  submissionTime : ℕ
  calculationTime : ℕ
  lastAccessTime : ℕ
deriving DecidableEq

/-- The all-zero record: the value a Solidity mapping holds for a key that
was never written or whose entry was `delete`d. -/
def TaxRecord.empty : TaxRecord :=
  { incomeHash := 0
    deductionsHash := 0
    taxOwedHash := 0
    calculated := false
    submissionTime := 0
    calculationTime := 0
    lastAccessTime := 0 }

/-- Point update of a Solidity mapping. -/
def store {α : Type} (m : Addr → α) (a : Addr) (v : α) : Addr → α :=
  fun x => if x = a then v else m x

/-- The mutable storage of the contract: `owner`, `deploymentTime`,
`totalTaxpayers`, and the two mappings `taxRecords` and `hasSubmitted`. -/
structure ContractState where
  owner : Addr
  deploymentTime : ℕ
  totalTaxpayers : ℕ
  taxRecords : Addr → TaxRecord
  hasSubmitted : Addr → Bool

/-- Embedding of the constructor (lines 56-62): mappings start empty and
`totalTaxpayers` is zero. -/
def constructorState (deployer : Addr) (timestamp : ℕ) : ContractState :=
  { owner := deployer
    deploymentTime := timestamp
    totalTaxpayers := 0
    taxRecords := fun _ => TaxRecord.empty
    hasSubmitted := fun _ => false }

/-- Embedding of `submitTaxInfo` (lines 70-96). The `require` failures are
`Except.error` with the contract's revert strings, checked in source
order; on success a fresh record is stored, `hasSubmitted` is set and
`totalTaxpayers` incremented. -/
def submitTaxInfo (s : ContractState) (sender : Addr) (timestamp : ℕ)
    (encryptedIncome : Bytes32 × Bytes32) (incomeProof : List ℕ)
    (encryptedDeductions : Bytes32 × Bytes32) (deductionsProof : List ℕ) :
    Except String ContractState :=
  if s.hasSubmitted sender = true then
    .error "Tax information already submitted for this address"
  else if incomeProof.length = 0 then .error "Income proof required"
  else if deductionsProof.length = 0 then .error "Deductions proof required"
  else .ok
    { s with
      taxRecords := store s.taxRecords sender
        { incomeHash := encryptedIncome.1
          deductionsHash := encryptedDeductions.1
          taxOwedHash := 0
          calculated := false
          submissionTime := timestamp
          calculationTime := 0
          lastAccessTime := timestamp }
      hasSubmitted := store s.hasSubmitted sender true
      totalTaxpayers := s.totalTaxpayers + 1 }

/-- Embedding of `calculateTax` (lines 100-122). The simulated-FHE
`keccak256(abi.encodePacked(incomeHash, deductionsHash, timestamp,
"tax_calculation"))` is abstracted as a function `keccak` of the three
varying inputs; on success the record gets the hash, `calculated := true`
and the current timestamp. -/
def calculateTax (keccak : Bytes32 → Bytes32 → ℕ → Bytes32)
    (s : ContractState) (sender : Addr) (timestamp : ℕ) :
    Except String ContractState :=
  if s.hasSubmitted sender = false then .error "No tax information submitted"
  else if (s.taxRecords sender).calculated = true then .error "Tax already calculated"
  else
    let record := s.taxRecords sender
    let calculatedTaxHash := keccak record.incomeHash record.deductionsHash timestamp
    .ok
      { s with
        taxRecords := store s.taxRecords sender
          { record with
            taxOwedHash := calculatedTaxHash
            calculated := true
            calculationTime := timestamp
            lastAccessTime := timestamp } }

/-- Embedding of `getTaxOwed` (lines 126-129): the `onlyTaxpayer` modifier
requires `hasSubmitted`, then the record must be calculated; returns
`[taxOwedHash, bytes32(0)]`. -/
def getTaxOwed (s : ContractState) (sender : Addr) :
    Except String (Bytes32 × Bytes32) :=
  if s.hasSubmitted sender = false then .error "No tax record found"
  else if (s.taxRecords sender).calculated = false then .error "Tax not yet calculated"
  else .ok ((s.taxRecords sender).taxOwedHash, 0)

/-- Embedding of `isCalculated` (lines 132-134). -/
def isCalculated (s : ContractState) (taxpayer : Addr) : Bool :=
  (s.taxRecords taxpayer).calculated

/-- Embedding of `getContractStats` (lines 147-154). -/
def getContractStats (s : ContractState) : ℕ × ℕ × Addr × ℕ :=
  (s.totalTaxpayers, s.deploymentTime, s.owner, VERSION)

/-- Embedding of `clearTaxRecord` (lines 158-163): the `onlyTaxpayer`
modifier requires `hasSubmitted`; on success the record is `delete`d (reset
to the all-zero value) and `hasSubmitted` is set to false. -/
def clearTaxRecord (s : ContractState) (sender : Addr) :
    Except String ContractState :=
  if s.hasSubmitted sender = false then .error "No tax record found"
  else .ok
    { s with
      taxRecords := store s.taxRecords sender TaxRecord.empty
      hasSubmitted := store s.hasSubmitted sender false }

/-- One external mutating call, with its caller and block timestamp. -/
inductive Op where
  | submit (sender : Addr) (timestamp : ℕ) (encryptedIncome : Bytes32 × Bytes32)
      (incomeProof : List ℕ) (encryptedDeductions : Bytes32 × Bytes32)
      (deductionsProof : List ℕ)
  | calculate (sender : Addr) (timestamp : ℕ)
  | clear (sender : Addr)

/-- Execute one call; a reverted call (an `Except.error`) leaves the
storage unchanged, as the EVM does. -/
def applyOp (keccak : Bytes32 → Bytes32 → ℕ → Bytes32)
    (s : ContractState) : Op → ContractState
  | .submit sender ts ei ip ed dp =>
    match submitTaxInfo s sender ts ei ip ed dp with
    | .ok s' => s'
    | .error _ => s
  | .calculate sender ts =>
    match calculateTax keccak s sender ts with
    | .ok s' => s'
    | .error _ => s
  | .clear sender =>
    match clearTaxRecord s sender with
    | .ok s' => s'
    | .error _ => s

/-- Run a sequence of calls from a freshly deployed contract. -/
def run (keccak : Bytes32 → Bytes32 → ℕ → Bytes32)
    (deployer : Addr) (deployTs : ℕ) (ops : List Op) : ContractState :=
  ops.foldl (applyOp keccak) (constructorState deployer deployTs)

/-- A storage state reachable from deployment by some call sequence. -/
def Reachable (keccak : Bytes32 → Bytes32 → ℕ → Bytes32)
    (s : ContractState) : Prop :=
  ∃ deployer deployTs ops, run keccak deployer deployTs ops = s

/-- A hash stand-in that always returns `1`, used to instantiate the
abstracted `keccak256` in concrete runs. -/
def keccakOne : Bytes32 → Bytes32 → ℕ → Bytes32 := fun _ _ _ => 1

/-- A concrete state in which account `1` has submitted but not yet
calculated. -/
def exampleSubmitted : ContractState :=
  run keccakOne 0 1 [.submit 1 5 (3, 4) [1] (6, 7) [2]]

/-- A concrete state in which account `1` has submitted and calculated. -/
def exampleCalculated : ContractState :=
  run keccakOne 0 1 [.submit 1 5 (3, 4) [1] (6, 7) [2], .calculate 1 6]

/-- Claim C2: `calculateTax` succeeds exactly when the caller has submitted
and the record is not yet calculated, and `getTaxOwed` succeeds exactly
when the caller has submitted and the record is calculated; in all other
cases the call fails. -/
theorem claim_C2_calculate_and_view_conditions
    (keccak : Bytes32 → Bytes32 → ℕ → Bytes32) (s : ContractState)
    (sender : Addr) (timestamp : ℕ) :
    ((∃ s', calculateTax keccak s sender timestamp = .ok s') ↔
      s.hasSubmitted sender = true ∧ (s.taxRecords sender).calculated = false) ∧
    ((∃ r, getTaxOwed s sender = .ok r) ↔
      s.hasSubmitted sender = true ∧ (s.taxRecords sender).calculated = true) := by
  constructor
  · simp only [calculateTax]
    split_ifs <;> simp_all
  · simp only [getTaxOwed]
    split_ifs <;> simp_all

/-- Witness for claim C2 at a concrete state. -/
theorem claim_C2_calculate_and_view_conditions_witness :
    ∃ s', calculateTax keccakOne exampleSubmitted 1 6 = .ok s' :=
  (claim_C2_calculate_and_view_conditions keccakOne exampleSubmitted 1 6).1.mpr
    ⟨rfl, rfl⟩

/-- Claim C3: `submitTaxInfo` succeeds exactly when no record exists for
the caller and both proofs are non-empty; a failed submission leaves the
storage (record, `hasSubmitted`, `totalTaxpayers`) exactly as it was. -/
theorem claim_C3_submit_conditions_and_no_state_change
    (keccak : Bytes32 → Bytes32 → ℕ → Bytes32) (s : ContractState)
    (sender : Addr) (timestamp : ℕ) (ei : Bytes32 × Bytes32) (ip : List ℕ)
    (ed : Bytes32 × Bytes32) (dp : List ℕ) :
    ((∃ s', submitTaxInfo s sender timestamp ei ip ed dp = .ok s') ↔
      s.hasSubmitted sender = false ∧ ip ≠ [] ∧ dp ≠ []) ∧
    ((¬ ∃ s', submitTaxInfo s sender timestamp ei ip ed dp = .ok s') →
      applyOp keccak s (.submit sender timestamp ei ip ed dp) = s) := by
  constructor
  · simp only [submitTaxInfo]
    split_ifs <;> simp_all [List.length_eq_zero]
  · intro h
    cases hEq : submitTaxInfo s sender timestamp ei ip ed dp with
    | ok s' => exact absurd ⟨s', hEq⟩ h
    | error e => simp [applyOp, hEq]

/-- Witness for claim C3 at a concrete state: a second submit for account
`1` fails and leaves the state unchanged. -/
theorem claim_C3_submit_conditions_and_no_state_change_witness :
    applyOp keccakOne exampleSubmitted (.submit 1 9 (3, 4) [1] (6, 7) [2]) =
      exampleSubmitted :=
  (claim_C3_submit_conditions_and_no_state_change keccakOne exampleSubmitted
      1 9 (3, 4) [1] (6, 7) [2]).2
    (by
      intro hex
      have := (claim_C3_submit_conditions_and_no_state_change keccakOne
          exampleSubmitted 1 9 (3, 4) [1] (6, 7) [2]).1.mp hex
      simp [exampleSubmitted, run, applyOp, submitTaxInfo, store,
        constructorState] at this)

/-- Claim C4: when an account has submitted, `clearTaxRecord` succeeds,
afterwards `hasSubmitted` is false and the record is entirely deleted, and
a subsequent `submitTaxInfo` with non-empty proofs succeeds, creating a
fresh record whose `submissionTime` is the new submission's timestamp. -/
theorem claim_C4_clear_then_resubmit (s : ContractState) (sender : Addr)
    (h : s.hasSubmitted sender = true) (timestamp : ℕ)
    (ei : Bytes32 × Bytes32) (ip : List ℕ) (ed : Bytes32 × Bytes32) (dp : List ℕ)
    (hip : ip ≠ []) (hdp : dp ≠ []) :
    ∃ s', clearTaxRecord s sender = .ok s' ∧
      s'.hasSubmitted sender = false ∧
      s'.taxRecords sender = TaxRecord.empty ∧
      ∃ s'', submitTaxInfo s' sender timestamp ei ip ed dp = .ok s'' ∧
        s''.hasSubmitted sender = true ∧
        (s''.taxRecords sender).submissionTime = timestamp := by
  simp [clearTaxRecord, submitTaxInfo, store, h, hip, hdp, List.length_eq_zero]

/-- Witness for claim C4 at a concrete state. -/
theorem claim_C4_clear_then_resubmit_witness :
    ∃ s', clearTaxRecord exampleSubmitted 1 = .ok s' ∧
      s'.hasSubmitted 1 = false ∧
      s'.taxRecords 1 = TaxRecord.empty ∧
      ∃ s'', submitTaxInfo s' 1 9 (3, 4) [1] (6, 7) [2] = .ok s'' ∧
        s''.hasSubmitted 1 = true ∧
        (s''.taxRecords 1).submissionTime = 9 :=
  claim_C4_clear_then_resubmit exampleSubmitted 1 rfl 9 (3, 4) [1] (6, 7) [2]
    (by decide) (by decide)

/-- Timestamp sanity of a call: a `calculate` call carries a positive
block timestamp (true of every real chain). Other calls are unconstrained. -/
def opTimeOk : Op → Bool
  | .calculate _ ts => decide (0 < ts)
  | _ => true

/-- Invariant of claim C5: a calculated record has a positive calculation
time and a non-zero tax-owed hash. -/
def CalcInv (s : ContractState) : Prop :=
  ∀ a : Addr, (s.taxRecords a).calculated = true →
    0 < (s.taxRecords a).calculationTime ∧ (s.taxRecords a).taxOwedHash ≠ 0

/-- Invariant of claim C9: a calculated record belongs to an account that
has submitted. -/
def CalcImpliesSubmitted (s : ContractState) : Prop :=
  ∀ a : Addr, (s.taxRecords a).calculated = true → s.hasSubmitted a = true

/-- One step preserves the C5 invariant, provided the hash function never
returns zero and the step's timestamp is sane. -/
lemma calcInv_step (keccak : Bytes32 → Bytes32 → ℕ → Bytes32)
    (hk : ∀ a b t, keccak a b t ≠ 0) (s : ContractState) (op : Op)
    (hop : opTimeOk op = true) (hs : CalcInv s) :
    CalcInv (applyOp keccak s op) := by
  cases op with
  | submit sender ts ei ip ed dp =>
    cases hEq : submitTaxInfo s sender ts ei ip ed dp with
    | error e => simpa [applyOp, hEq] using hs
    | ok s' =>
      simp only [applyOp, hEq]
      simp only [submitTaxInfo] at hEq
      split_ifs at hEq
      injection hEq with hEq
      subst hEq
      intro a
      by_cases hae : a = sender
      · simp [store, hae]
      · simp only [store, if_neg hae]
        exact hs a
  | calculate sender ts =>
    cases hEq : calculateTax keccak s sender ts with
    | error e => simpa [applyOp, hEq] using hs
    | ok s' =>
      simp only [applyOp, hEq]
      simp only [calculateTax] at hEq
      split_ifs at hEq
      injection hEq with hEq
      subst hEq
      intro a
      by_cases hae : a = sender
      · simp only [opTimeOk, decide_eq_true_eq] at hop
        simp [store, hae, hop, hk]
      · simp only [store, hae, if_neg hae]
        exact hs a
  | clear sender =>
    cases hEq : clearTaxRecord s sender with
    | error e => simpa [applyOp, hEq] using hs
    | ok s' =>
      simp only [applyOp, hEq]
      simp only [clearTaxRecord] at hEq
      split_ifs at hEq
      injection hEq with hEq
      subst hEq
      intro a
      by_cases hae : a = sender
      · simp [store, hae, TaxRecord.empty]
      · simp only [store, if_neg hae]
        exact hs a

/-- The C5 invariant holds along every run with sane timestamps. -/
lemma calcInv_run (keccak : Bytes32 → Bytes32 → ℕ → Bytes32)
    (hk : ∀ a b t, keccak a b t ≠ 0) (ops : List Op)
    (hops : ∀ op ∈ ops, opTimeOk op = true) (s : ContractState)
    (hs : CalcInv s) : CalcInv (ops.foldl (applyOp keccak) s) := by
  induction ops generalizing s with
  | nil => exact hs
  | cons op rest ih =>
    exact ih (fun o ho => hops o (List.mem_cons_of_mem _ ho)) _
      (calcInv_step keccak hk s op (hops op (List.mem_cons_self _ _)) hs)

/-- Claim C5: in every state reachable from deployment by submit, calculate
and clear calls (with positive block timestamps, and a keccak that never
yields the zero word), a record with `calculated = true` has a strictly
positive `calculationTime` and a non-zero `taxOwedHash`. -/
theorem claim_C5_calculated_record_invariant
    (keccak : Bytes32 → Bytes32 → ℕ → Bytes32)
    (hk : ∀ a b t, keccak a b t ≠ 0) (deployer : Addr) (deployTs : ℕ)
    (ops : List Op) (hops : ∀ op ∈ ops, opTimeOk op = true) (acct : Addr)
    (hc : ((run keccak deployer deployTs ops).taxRecords acct).calculated = true) :
    0 < ((run keccak deployer deployTs ops).taxRecords acct).calculationTime ∧
      ((run keccak deployer deployTs ops).taxRecords acct).taxOwedHash ≠ 0 :=
  calcInv_run keccak hk ops hops (constructorState deployer deployTs)
    (fun _ h => by simp [constructorState, TaxRecord.empty] at h) acct hc

/-- Witness for claim C5 on a concrete two-call run. -/
theorem claim_C5_calculated_record_invariant_witness :
    0 < ((run keccakOne 0 1 [.submit 1 5 (3, 4) [1] (6, 7) [2],
        .calculate 1 6]).taxRecords 1).calculationTime ∧
      ((run keccakOne 0 1 [.submit 1 5 (3, 4) [1] (6, 7) [2],
        .calculate 1 6]).taxRecords 1).taxOwedHash ≠ 0 :=
  claim_C5_calculated_record_invariant keccakOne (fun _ _ _ => one_ne_zero)
    0 1 [.submit 1 5 (3, 4) [1] (6, 7) [2], .calculate 1 6] (by decide) 1
    (by decide)

/-- One step preserves the C9 invariant. -/
lemma calcImpliesSubmitted_step (keccak : Bytes32 → Bytes32 → ℕ → Bytes32)
    (s : ContractState) (op : Op) (hs : CalcImpliesSubmitted s) :
    CalcImpliesSubmitted (applyOp keccak s op) := by
  cases op with
  | submit sender ts ei ip ed dp =>
    cases hEq : submitTaxInfo s sender ts ei ip ed dp with
    | error e => simpa [applyOp, hEq] using hs
    | ok s' =>
      simp only [applyOp, hEq]
      simp only [submitTaxInfo] at hEq
      split_ifs at hEq
      injection hEq with hEq
      subst hEq
      intro a
      by_cases hae : a = sender
      · simp [store, hae]
      · simp only [store, if_neg hae]
        exact hs a
  | calculate sender ts =>
    cases hEq : calculateTax keccak s sender ts with
    | error e => simpa [applyOp, hEq] using hs
    | ok s' =>
      simp only [applyOp, hEq]
      simp only [calculateTax] at hEq
      split_ifs at hEq with h1 h2
      injection hEq with hEq
      subst hEq
      intro a
      by_cases hae : a = sender
      · subst hae
        simpa using fun _ => by simpa using h1
      · simp only [store, if_neg hae]
        exact hs a
  | clear sender =>
    cases hEq : clearTaxRecord s sender with
    | error e => simpa [applyOp, hEq] using hs
    | ok s' =>
      simp only [applyOp, hEq]
      simp only [clearTaxRecord] at hEq
      split_ifs at hEq
      injection hEq with hEq
      subst hEq
      intro a
      by_cases hae : a = sender
      · simp [store, hae, TaxRecord.empty]
      · simp only [store, if_neg hae]
        exact hs a

/-- The C9 invariant holds along every run. -/
lemma calcImpliesSubmitted_run (keccak : Bytes32 → Bytes32 → ℕ → Bytes32)
    (ops : List Op) (s : ContractState) (hs : CalcImpliesSubmitted s) :
    CalcImpliesSubmitted (ops.foldl (applyOp keccak) s) := by
  induction ops generalizing s with
  | nil => exact hs
  | cons op rest ih =>
    exact ih _ (calcImpliesSubmitted_step keccak s op hs)

/-- Claim C9: in every reachable state, a calculated record implies the
account has submitted — `isCalculated` never returns true for an account
with `hasSubmitted = false`. -/
theorem claim_C9_calculated_implies_submitted
    (keccak : Bytes32 → Bytes32 → ℕ → Bytes32) (s : ContractState)
    (hr : Reachable keccak s) (a : Addr) (hc : isCalculated s a = true) :
    s.hasSubmitted a = true := by
  obtain ⟨deployer, deployTs, ops, rfl⟩ := hr
  exact calcImpliesSubmitted_run keccak ops (constructorState deployer deployTs)
    (fun _ h => by simp [constructorState, TaxRecord.empty] at h) a hc

/-- Witness for claim C9 at a concrete reachable state. -/
theorem claim_C9_calculated_implies_submitted_witness :
    exampleCalculated.hasSubmitted 1 = true :=
  claim_C9_calculated_implies_submitted keccakOne exampleCalculated
    ⟨0, 1, [.submit 1 5 (3, 4) [1] (6, 7) [2], .calculate 1 6], rfl⟩ 1 rfl

/-- Claim C10: the `totalTaxpayers` counter reported by `getContractStats`
never decreases under any call; every successful `submitTaxInfo` increments
it by one, and a successful `clearTaxRecord` leaves it unchanged — it
counts cumulative successful submissions, not active records. -/
theorem claim_C10_total_taxpayers_monotone :
    (∀ (keccak : Bytes32 → Bytes32 → ℕ → Bytes32) (s : ContractState) (op : Op),
      (getContractStats s).1 ≤ (getContractStats (applyOp keccak s op)).1) ∧
    (∀ (s : ContractState) (sender : Addr) (timestamp : ℕ)
      (ei : Bytes32 × Bytes32) (ip : List ℕ) (ed : Bytes32 × Bytes32)
      (dp : List ℕ) (s' : ContractState),
      submitTaxInfo s sender timestamp ei ip ed dp = .ok s' →
        s'.totalTaxpayers = s.totalTaxpayers + 1) ∧
    (∀ (s : ContractState) (sender : Addr) (s' : ContractState),
      clearTaxRecord s sender = .ok s' → s'.totalTaxpayers = s.totalTaxpayers) := by
  refine ⟨?_, ?_, ?_⟩
  · intro keccak s op
    cases op with
    | submit sender ts ei ip ed dp =>
      cases hEq : submitTaxInfo s sender ts ei ip ed dp with
      | error e => simp [applyOp, hEq]
      | ok s' =>
        simp only [applyOp, hEq, getContractStats]
        simp only [submitTaxInfo] at hEq
        split_ifs at hEq
        injection hEq with hEq
        subst hEq
        exact Nat.le_succ _
    | calculate sender ts =>
      cases hEq : calculateTax keccak s sender ts with
      | error e => simp [applyOp, hEq]
      | ok s' =>
        simp only [applyOp, hEq, getContractStats]
        simp only [calculateTax] at hEq
        split_ifs at hEq
        injection hEq with hEq
        subst hEq
        exact le_refl _
    | clear sender =>
      cases hEq : clearTaxRecord s sender with
      | error e => simp [applyOp, hEq]
      | ok s' =>
        simp only [applyOp, hEq, getContractStats]
        simp only [clearTaxRecord] at hEq
        split_ifs at hEq
        injection hEq with hEq
        subst hEq
        exact le_refl _
  · intro s sender ts ei ip ed dp s' hEq
    simp only [submitTaxInfo] at hEq
    split_ifs at hEq
    injection hEq with hEq
    subst hEq
    rfl
  · intro s sender s' hEq
    simp only [clearTaxRecord] at hEq
    split_ifs at hEq
    injection hEq with hEq
    subst hEq
    rfl

/-- Witness for claim C10 at concrete inputs. -/
theorem claim_C10_total_taxpayers_monotone_witness :
    (getContractStats exampleSubmitted).1 ≤
      (getContractStats (applyOp keccakOne exampleSubmitted (.clear 1))).1 :=
  claim_C10_total_taxpayers_monotone.1 keccakOne exampleSubmitted (.clear 1)

end PrivateTaxCalculator
